import Mathlib

/-!
Shallow embedding of the configuration/bootstrap core of the
terraform-provider-datadog repository (src/datadog/provider.go):
the functions providerConfigure, translateClientError and getUserAgent,
together with the small amount of ambient state they read
(baseIpRangesSubdomain, version strings, the result of the community
client validation round-trip, and Go's net/url parser and
strings.Split / strings.Join).

External collaborators (the Go standard library, the terraform SDK and
the three Datadog client libraries) are modelled as explicit inputs:
an `Externals` record carries the URL parser, the outcome the
communityClient.Validate network round-trip would produce, the default
user agents of the generated V1/V2 client configurations, and the
version strings read at bootstrap.  Network effects are made visible as
an explicit event trace returned next to the result.
-/

namespace DatadogProvider

/-- Chars of Go strings.Split: split a character list on a separator
character; mirrors that Split("", sep) = [""] and that separators at the
edges produce empty components. -/
def splitChars (sep : Char) : List Char → List (List Char)
  | [] => [[]]
  | c :: rest =>
    match splitChars sep rest with
    | [] => [[c]]
    | g :: gs => if c = sep then [] :: g :: gs else (c :: g) :: gs

/-- Chars of Go strings.Join: interleave the separator character between
the components. -/
def joinChars (sep : Char) : List (List Char) → List Char
  | [] => []
  | [g] => g
  | g :: gs => g ++ sep :: joinChars sep gs

/-- Go strings.Split on a one-character separator, on Lean strings. -/
def goSplit (s : String) (sep : Char) : List String :=
  (splitChars sep s.data).map (fun l => String.mk l)

/-- Go strings.Join with a one-character separator, on Lean strings. -/
def goJoin (parts : List String) (sep : Char) : String :=
  String.mk (joinChars sep (parts.map String.data))

/-- Source: `baseIpRangesSubdomain = "ip-ranges"` (provider.go line 26). -/
def baseIpRangesSubdomain : String := "ip-ranges"

/-- Result of Go net/url.Parse as consumed by providerConfigure: the
Scheme field, the Host field (which keeps an explicit port when one is
present) and the Hostname() accessor (which strips the port). -/
structure ParsedURL where
  scheme : String
  host : String
  hostname : String
  deriving DecidableEq, Repr

/-- The derived IP-ranges lookup host computed inside providerConfigure
(lines 203-208): split the port-stripped hostname into DNS labels on
".", drop the leftmost label when there are more than two labels,
prepend baseIpRangesSubdomain, and rejoin with ".". -/
def ipRangesHost (hostname : String) : String :=
  let ipRangesDNSNameArr := goSplit hostname '.'
  let ipRangesDNSNameArr :=
    if ipRangesDNSNameArr.length > 2 then ipRangesDNSNameArr.drop 1
    else ipRangesDNSNameArr
  goJoin (baseIpRangesSubdomain :: ipRangesDNSNameArr) '.'

/-- External inputs read by the bootstrap: the URL parser of net/url,
the outcome the community client validation round-trip would report, the
default user agents of the generated client configurations, the runtime
and version strings, and the ambient debug-log-level signal. -/
structure Externals where
  parse : String → Except String ParsedURL
  validateOutcome : Except String Bool
  v1DefaultUserAgent : String
  v2DefaultUserAgent : String
  goVersion : String
  goos : String
  goarch : String
  providerVersion : String
  sdkVersion : String
  terraformVersion : String
  debugOrHigher : Bool

/-- Configuration input read from the schema.ResourceData: the four
named options api_key, app_key, api_url and validate. -/
structure ResourceData where
  api_key : String
  app_key : String
  api_url : String
  validate : Bool
  deriving DecidableEq, Repr

/-- Source: getUserAgent (provider.go lines 285-291): the Sprintf format
"terraform-provider-datadog/%s (terraform %s; terraform-cli %s) %s"
applied to the provider version, the SDK version string, the negotiated
terraform version and the wrapped client user agent. -/
def getUserAgent (ext : Externals) (clientUserAgent : String) : String :=
  "terraform-provider-datadog/" ++ ext.providerVersion ++
    " (terraform " ++ ext.sdkVersion ++
    "; terraform-cli " ++ ext.terraformVersion ++ ") " ++ clientUserAgent

/-- The argument providerConfigure passes to getUserAgent for the
community client (lines 140-146): the Sprintf format
"datadog-api-client-go/%s (go %s; os %s; arch %s)" applied to the
literal "go-datadog-api", runtime.Version(), runtime.GOOS and
runtime.GOARCH. -/
def communityWrappedAgent (ext : Externals) : String :=
  "datadog-api-client-go/" ++ "go-datadog-api" ++
    " (go " ++ ext.goVersion ++
    "; os " ++ ext.goos ++
    "; arch " ++ ext.goarch ++ ")"

/-- Errors returned by providerConfigure, one constructor per distinct
return-nil-comma-error site. -/
inductive ConfigureError where
  /-- "api_key and app_key must be set unless validate = false". -/
  | missingCreds
  /-- communityClient.Validate() returned an error (transport failure). -/
  | validateTransport (errText : String)
  /-- communityClient.Validate() completed and reported not-ok. -/
  | invalidCreds
  /-- "invalid API Url : %v" with the url.Parse error. -/
  | invalidAPIUrl (parseErr : String)
  /-- "missing protocol or host : %v" with the offending api_url. -/
  | missingProtocolOrHost (apiURL : String)
  deriving DecidableEq, Repr

/-- Rendering of each error exactly as the fmt.Errorf / errors.New call
sites produce it. -/
def ConfigureError.message : ConfigureError → String
  | .missingCreds => "api_key and app_key must be set unless validate = false"
  | .validateTransport errText => errText
  | .invalidCreds =>
      "Invalid or missing credentials provided to the Datadog Provider. Please confirm your API and APP keys are valid and are for the correct region, see https://www.terraform.io/docs/providers/datadog/ for more information on providing credentials for the Datadog Provider"
  | .invalidAPIUrl parseErr => "invalid API Url : " ++ parseErr
  | .missingProtocolOrHost apiURL => "missing protocol or host : " ++ apiURL

/-- The community (legacy generation) client as providerConfigure
configures it: credentials, optional base URL override, and the
User-Agent extra header. -/
structure CommunityClient where
  apiKey : String
  appKey : String
  baseUrl : Option String
  userAgent : String
  deriving DecidableEq, Repr

/-- The parts of a generated datadog-api-client configuration object
that providerConfigure writes: the UserAgent and Debug fields, and for
V1 the unstable-operation toggles. -/
structure ClientConfig where
  userAgent : String
  debug : Bool
  unstableOperations : List (String × Bool)
  deriving DecidableEq, Repr

/-- The auth context chain built with context.WithValue: API keys plus
the optional server-selection values ContextServerIndex,
ContextServerVariables, ContextOperationServerIndices and
ContextOperationServerVariables. -/
structure AuthContext where
  apiKey : String
  appKey : String
  serverIndex : Option Nat
  serverVariables : Option (List (String × String))
  operationServerIndices : Option (List (String × Nat))
  operationServerVariables : Option (List (String × List (String × String)))
  deriving DecidableEq, Repr

/-- The ProviderConfiguration aggregate returned on success. -/
structure ProviderConfiguration where
  communityClient : CommunityClient
  configV1 : ClientConfig
  configV2 : ClientConfig
  authV1 : AuthContext
  authV2 : AuthContext
  deriving DecidableEq, Repr

/-- Observable network effects of providerConfigure: the single
communityClient.Validate() round-trip when it happens. -/
inductive NetEvent where
  | validateCall
  deriving DecidableEq, Repr

/-- A fresh auth context holding only the credentials, before any
server-selection value is attached. -/
def baseAuth (apiKey appKey : String) : AuthContext :=
  { apiKey := apiKey
    appKey := appKey
    serverIndex := none
    serverVariables := none
    operationServerIndices := none
    operationServerVariables := none }

/-- The operation identifier carrying the per-operation routing entry. -/
def ipRangesOperationId : String := "IPRangesApiService.GetIPRanges"

/-- Shallow embedding of providerConfigure (provider.go lines 122-265).
Returns the result together with the trace of network events, in
order.  The api_url is parsed twice, once for the V1 block and once for
the V2 block, exactly as in the source. -/
def providerConfigure (ext : Externals) (d : ResourceData) :
    Except ConfigureError ProviderConfiguration × List NetEvent :=
  if d.validate && (d.api_key == "" || d.app_key == "") then
    (.error .missingCreds, [])
  else
    let communityClient : CommunityClient :=
      { apiKey := d.api_key
        appKey := d.app_key
        baseUrl := if d.api_url == "" then none else some d.api_url
        userAgent := getUserAgent ext (communityWrappedAgent ext) }
    let validation : Option ConfigureError × List NetEvent :=
      if d.validate then
        match ext.validateOutcome with
        | .error e => (some (.validateTransport e), [.validateCall])
        | .ok false => (some .invalidCreds, [.validateCall])
        | .ok true => (none, [.validateCall])
      else
        (none, [])
    match validation with
    | (some e, tr) => (.error e, tr)
    | (none, tr) =>
      let authV1 := baseAuth d.api_key d.app_key
      let configV1 : ClientConfig :=
        { userAgent := getUserAgent ext ext.v1DefaultUserAgent
          debug := ext.debugOrHigher
          unstableOperations :=
            [("GetLogsIndex", true), ("ListLogIndexes", true),
             ("UpdateLogsIndex", true), ("UpdateLogsIndexOrder", true)] }
      let v1Block : Except ConfigureError AuthContext :=
        if d.api_url == "" then .ok authV1
        else
          match ext.parse d.api_url with
          | .error parseErr => .error (.invalidAPIUrl parseErr)
          | .ok parsedApiUrl =>
            if parsedApiUrl.host == "" || parsedApiUrl.scheme == "" then
              .error (.missingProtocolOrHost d.api_url)
            else
              .ok { authV1 with
                serverIndex := some 1
                serverVariables := some
                  [("name", parsedApiUrl.host), ("protocol", parsedApiUrl.scheme)]
                operationServerIndices := some [(ipRangesOperationId, 1)]
                operationServerVariables := some
                  [(ipRangesOperationId,
                    [("name", ipRangesHost parsedApiUrl.hostname)])] }
      match v1Block with
      | .error e => (.error e, tr)
      | .ok authV1 =>
        let authV2 := baseAuth d.api_key d.app_key
        let configV2 : ClientConfig :=
          { userAgent := getUserAgent ext ext.v2DefaultUserAgent
            debug := ext.debugOrHigher
            unstableOperations := [] }
        let v2Block : Except ConfigureError AuthContext :=
          if d.api_url == "" then .ok authV2
          else
            match ext.parse d.api_url with
            | .error parseErr => .error (.invalidAPIUrl parseErr)
            | .ok parsedApiUrl =>
              if parsedApiUrl.host == "" || parsedApiUrl.scheme == "" then
                .error (.missingProtocolOrHost d.api_url)
              else
                .ok { authV2 with
                  serverIndex := some 1
                  serverVariables := some
                    [("name", parsedApiUrl.host), ("protocol", parsedApiUrl.scheme)] }
        match v2Block with
        | .error e => (.error e, tr)
        | .ok authV2 =>
          (.ok { communityClient := communityClient
                 configV1 := configV1
                 configV2 := configV2
                 authV1 := authV1
                 authV2 := authV2 }, tr)

/-- Go error values as classified by translateClientError: a structured
V1 API error carrying a decoded body, a structured V2 API error carrying
a decoded body, a url.Error, or any other error, each with its Error()
text. -/
inductive GoError where
  | v1APIError (errText : String) (body : String)
  | v2APIError (errText : String) (body : String)
  | urlError (errText : String)
  | generic (errText : String)
  deriving DecidableEq, Repr

/-- The Error() text of a Go error value. -/
def GoError.text : GoError → String
  | .v1APIError t _ => t
  | .v2APIError t _ => t
  | .urlError t => t
  | .generic t => t

/-- Whether the error carries a structured API error body from either
client generation. -/
def GoError.isStructuredAPIError : GoError → Bool
  | .v1APIError _ _ => true
  | .v2APIError _ _ => true
  | .urlError _ => false
  | .generic _ => false

/-- The decoded body of a structured API error (empty otherwise). -/
def GoError.body : GoError → String
  | .v1APIError _ b => b
  | .v2APIError _ b => b
  | .urlError _ => ""
  | .generic _ => ""

/-- Source: translateClientError (provider.go lines 267-283): default
the context message to "an error occurred" when empty, then format per
the dynamic classification of the error value. -/
def translateClientError (err : GoError) (msg : String) : String :=
  let msg := if msg == "" then "an error occurred" else msg
  match err with
  | .v1APIError t b => msg ++ ": " ++ t ++ ": " ++ b
  | .v2APIError t b => msg ++ ": " ++ t ++ ": " ++ b
  | .urlError t => msg ++ " (url.Error): " ++ t
  | .generic t => msg ++ ": " ++ t

/-- Substring containment, stated on the underlying character lists. -/
def containsStr (needle haystack : String) : Prop :=
  ∃ pre post : List Char, haystack.data = pre ++ needle.data ++ post

/-- Project the success payload of an Except value. -/
def getOk {E A : Type} : Except E A → Option A
  | .ok a => some a
  | .error _ => none

/-- Whether a bootstrap error is one of the endpoint-resolution errors. -/
def ConfigureError.isEndpointError : ConfigureError → Bool
  | .invalidAPIUrl _ => true
  | .missingProtocolOrHost _ => true
  | _ => false

/-- Whether a bootstrap error is one of the credential-validation
errors. -/
def ConfigureError.isCredentialError : ConfigureError → Bool
  | .missingCreds => true
  | .validateTransport _ => true
  | .invalidCreds => true
  | _ => false

/-- Modelled from Go net/url.Parse at the handful of concrete inputs the
witnesses below use: well-formed absolute URLs parse into their scheme,
host (port kept) and hostname (port stripped); a scheme-less string such
as "api.example.com" parses into a path with empty Scheme and Host; a
URL with a space inside the host fails to parse with an error text that
repeats the offending input. -/
def demoParse : String → Except String ParsedURL := fun s =>
  if s == "https://api.datadoghq.com" then
    .ok { scheme := "https", host := "api.datadoghq.com", hostname := "api.datadoghq.com" }
  else if s == "https://app.us5.datadoghq.com" then
    .ok { scheme := "https", host := "app.us5.datadoghq.com", hostname := "app.us5.datadoghq.com" }
  else if s == "https://api.example.com:8080" then
    .ok { scheme := "https", host := "api.example.com:8080", hostname := "api.example.com" }
  else if s == "api.example.com" then
    .ok { scheme := "", host := "", hostname := "" }
  else
    .error ("parse " ++ s ++ ": invalid character in host")

/-- A concrete external environment for witnesses: the demo parser, a
validation round-trip that reports success, and fixed version strings. -/
def ext0 : Externals :=
  { parse := demoParse
    validateOutcome := .ok true
    v1DefaultUserAgent := "datadog-api-client-go/1.0.0-beta.8 (go go1.14.2; os linux; arch amd64)"
    v2DefaultUserAgent := "datadog-api-client-go/1.0.0-beta.8 (go go1.14.2; os linux; arch amd64)"
    goVersion := "go1.14.2"
    goos := "linux"
    goarch := "amd64"
    providerVersion := "2.12.1"
    sdkVersion := "1.15.0"
    terraformVersion := "0.12.26"
    debugOrHigher := false }

/-- Concrete input: validation disabled, empty credentials, no
api_url. -/
def dNoValidate : ResourceData :=
  { api_key := "", app_key := "", api_url := "", validate := false }

/-- Concrete input: validation enabled, a multi-label override URL. -/
def dOverride : ResourceData :=
  { api_key := "a", app_key := "b", api_url := "https://app.us5.datadoghq.com", validate := true }

/-- Concrete input: validation enabled, an override URL that fails to
parse (space inside the host). -/
def dBadUrl : ResourceData :=
  { api_key := "a", app_key := "b", api_url := "http://a b.com", validate := true }

/-- Concrete input: validation enabled, an override URL carrying an
explicit port. -/
def dPort : ResourceData :=
  { api_key := "a", app_key := "b", api_url := "https://api.example.com:8080", validate := true }

/-- Concrete input: validation enabled, a scheme-less api_url that
parses with empty host and scheme. -/
def dNoScheme : ResourceData :=
  { api_key := "a", app_key := "b", api_url := "api.example.com", validate := true }

/-- From the words of the spec (section 6, user-agent header): the
format string
"[hosting-tool]/[tool-version] ([runtime-name] [runtime-version]; [runtime-cli-version]) [wrapped-client-agent]"
as a function of its six placeholders, written to be compared against
getUserAgent. -/
def specUserAgentFormat (hostingTool toolVersion runtimeName runtimeVersion
    runtimeCliVersion wrappedClientAgent : String) : String :=
  hostingTool ++ "/" ++ toolVersion ++ " (" ++ runtimeName ++ " " ++
    runtimeVersion ++ "; " ++ runtimeCliVersion ++ ") " ++ wrappedClientAgent

/-- Helper: the guard on line 127 is false whenever validation is off or
both credentials are non-empty. -/
theorem guard_false {d : ResourceData}
    (hok : d.validate = true → d.api_key ≠ "" ∧ d.app_key ≠ "") :
    (d.validate && (d.api_key == "" || d.app_key == "")) = false := by
  cases hv : d.validate with
  | false => simp
  | true =>
    obtain ⟨h1, h2⟩ := hok hv
    simp [beq_eq_false_iff_ne.mpr h1, beq_eq_false_iff_ne.mpr h2]

/-- Helper: full evaluation of providerConfigure on a successful run
with an override URL whose parse yields non-empty host and scheme. -/
theorem providerConfigure_eq_success_override {ext : Externals} {d : ResourceData}
    {u : ParsedURL}
    (hok : d.validate = true →
      d.api_key ≠ "" ∧ d.app_key ≠ "" ∧ ext.validateOutcome = .ok true)
    (hurl : d.api_url ≠ "")
    (hparse : ext.parse d.api_url = .ok u)
    (hhost : u.host ≠ "") (hscheme : u.scheme ≠ "") :
    providerConfigure ext d =
      (.ok
        { communityClient :=
            { apiKey := d.api_key
              appKey := d.app_key
              baseUrl := some d.api_url
              userAgent := getUserAgent ext (communityWrappedAgent ext) }
          configV1 :=
            { userAgent := getUserAgent ext ext.v1DefaultUserAgent
              debug := ext.debugOrHigher
              unstableOperations :=
                [("GetLogsIndex", true), ("ListLogIndexes", true),
                 ("UpdateLogsIndex", true), ("UpdateLogsIndexOrder", true)] }
          configV2 :=
            { userAgent := getUserAgent ext ext.v2DefaultUserAgent
              debug := ext.debugOrHigher
              unstableOperations := [] }
          authV1 :=
            { baseAuth d.api_key d.app_key with
              serverIndex := some 1
              serverVariables := some
                [("name", u.host), ("protocol", u.scheme)]
              operationServerIndices := some [(ipRangesOperationId, 1)]
              operationServerVariables := some
                [(ipRangesOperationId, [("name", ipRangesHost u.hostname)])] }
          authV2 :=
            { baseAuth d.api_key d.app_key with
              serverIndex := some 1
              serverVariables := some
                [("name", u.host), ("protocol", u.scheme)] } },
       if d.validate then [NetEvent.validateCall] else []) := by
  have hu : (d.api_url == "") = false := beq_eq_false_iff_ne.mpr hurl
  have hh : (u.host == "") = false := beq_eq_false_iff_ne.mpr hhost
  have hs : (u.scheme == "") = false := beq_eq_false_iff_ne.mpr hscheme
  cases hv : d.validate with
  | false =>
    simp only [providerConfigure, hv, hu, hh, hs, hparse]
    rfl
  | true =>
    have h1 : (d.api_key == "") = false := beq_eq_false_iff_ne.mpr (hok hv).1
    have h2 : (d.app_key == "") = false := beq_eq_false_iff_ne.mpr (hok hv).2.1
    have hvo : ext.validateOutcome = .ok true := (hok hv).2.2
    simp only [providerConfigure, hv, h1, h2, hu, hh, hs, hparse, hvo]
    rfl

/-- Helper: full evaluation of providerConfigure on a successful run
without an api_url. -/
theorem providerConfigure_eq_success_noURL {ext : Externals} {d : ResourceData}
    (hok : d.validate = true →
      d.api_key ≠ "" ∧ d.app_key ≠ "" ∧ ext.validateOutcome = .ok true)
    (hurl : d.api_url = "") :
    providerConfigure ext d =
      (.ok
        { communityClient :=
            { apiKey := d.api_key
              appKey := d.app_key
              baseUrl := none
              userAgent := getUserAgent ext (communityWrappedAgent ext) }
          configV1 :=
            { userAgent := getUserAgent ext ext.v1DefaultUserAgent
              debug := ext.debugOrHigher
              unstableOperations :=
                [("GetLogsIndex", true), ("ListLogIndexes", true),
                 ("UpdateLogsIndex", true), ("UpdateLogsIndexOrder", true)] }
          configV2 :=
            { userAgent := getUserAgent ext ext.v2DefaultUserAgent
              debug := ext.debugOrHigher
              unstableOperations := [] }
          authV1 := baseAuth d.api_key d.app_key
          authV2 := baseAuth d.api_key d.app_key },
       if d.validate then [NetEvent.validateCall] else []) := by
  have hu : (d.api_url == "") = true := beq_iff_eq.mpr hurl
  cases hv : d.validate with
  | false =>
    simp only [providerConfigure, hv, hu]
    rfl
  | true =>
    have h1 : (d.api_key == "") = false := beq_eq_false_iff_ne.mpr (hok hv).1
    have h2 : (d.app_key == "") = false := beq_eq_false_iff_ne.mpr (hok hv).2.1
    have hvo : ext.validateOutcome = .ok true := (hok hv).2.2
    simp only [providerConfigure, hv, h1, h2, hu, hvo]
    rfl

/-- Helper: when the api_url fails to parse, providerConfigure returns
the "invalid API Url" error, after the validation network round-trip
when validation is on. -/
theorem providerConfigure_eq_parse_error {ext : Externals} {d : ResourceData}
    {pe : String}
    (hok : d.validate = true →
      d.api_key ≠ "" ∧ d.app_key ≠ "" ∧ ext.validateOutcome = .ok true)
    (hurl : d.api_url ≠ "")
    (hparse : ext.parse d.api_url = .error pe) :
    providerConfigure ext d =
      (.error (.invalidAPIUrl pe),
       if d.validate then [NetEvent.validateCall] else []) := by
  have hu : (d.api_url == "") = false := beq_eq_false_iff_ne.mpr hurl
  cases hv : d.validate with
  | false =>
    simp only [providerConfigure, hv, hu, hparse]
    rfl
  | true =>
    have h1 : (d.api_key == "") = false := beq_eq_false_iff_ne.mpr (hok hv).1
    have h2 : (d.app_key == "") = false := beq_eq_false_iff_ne.mpr (hok hv).2.1
    have hvo : ext.validateOutcome = .ok true := (hok hv).2.2
    simp only [providerConfigure, hv, h1, h2, hu, hparse, hvo]
    rfl

/-- Helper: when the api_url parses but the host or the scheme is empty,
providerConfigure returns the "missing protocol or host" error, after
the validation network round-trip when validation is on. -/
theorem providerConfigure_eq_incomplete {ext : Externals} {d : ResourceData}
    {u : ParsedURL}
    (hok : d.validate = true →
      d.api_key ≠ "" ∧ d.app_key ≠ "" ∧ ext.validateOutcome = .ok true)
    (hurl : d.api_url ≠ "")
    (hparse : ext.parse d.api_url = .ok u)
    (hbad : u.host = "" ∨ u.scheme = "") :
    providerConfigure ext d =
      (.error (.missingProtocolOrHost d.api_url),
       if d.validate then [NetEvent.validateCall] else []) := by
  have hu : (d.api_url == "") = false := beq_eq_false_iff_ne.mpr hurl
  have hb : (u.host == "" || u.scheme == "") = true := by
    cases hbad with
    | inl h => simp [h]
    | inr h => simp [h]
  cases hv : d.validate with
  | false =>
    simp only [providerConfigure, hv, hu, hparse, hb]
    rfl
  | true =>
    have h1 : (d.api_key == "") = false := beq_eq_false_iff_ne.mpr (hok hv).1
    have h2 : (d.app_key == "") = false := beq_eq_false_iff_ne.mpr (hok hv).2.1
    have hvo : ext.validateOutcome = .ok true := (hok hv).2.2
    simp only [providerConfigure, hv, h1, h2, hu, hparse, hb, hvo]
    rfl

/-- Helper: inversion on any successful run of providerConfigure — the
three user agents are each produced by getUserAgent on the respective
wrapped client agent, and the V2 auth context never carries
per-operation routing values. -/
theorem providerConfigure_ok_inv {ext : Externals} {d : ResourceData}
    {pc : ProviderConfiguration}
    (h : (providerConfigure ext d).1 = .ok pc) :
    pc.communityClient.userAgent = getUserAgent ext (communityWrappedAgent ext) ∧
    pc.configV1.userAgent = getUserAgent ext ext.v1DefaultUserAgent ∧
    pc.configV2.userAgent = getUserAgent ext ext.v2DefaultUserAgent ∧
    pc.authV2.operationServerIndices = none ∧
    pc.authV2.operationServerVariables = none := by
  unfold providerConfigure at h
  repeat' split at h
  all_goals simp_all [baseAuth]
  all_goals (cases h; simp [baseAuth])

/-- C5: for every input with validate = true where api_key or app_key is
the empty string, bootstrap fails immediately with the
MissingCredentials error, before any network access and with zero
network calls (empty event trace). -/
theorem validate_true_empty_creds_fails_without_network
    (ext : Externals) (d : ResourceData)
    (hv : d.validate = true) (hk : d.api_key = "" ∨ d.app_key = "") :
    providerConfigure ext d = (.error .missingCreds, []) := by
  have hg : (d.validate && (d.api_key == "" || d.app_key == "")) = true := by
    cases hk with
    | inl h => simp [hv, h]
    | inr h => simp [hv, h]
  simp only [providerConfigure, hg]
  rfl

/-- Witness for C5 at a concrete input: validate on, empty api_key. -/
theorem validate_true_empty_creds_fails_without_network_witness :
    providerConfigure ext0
        { api_key := "", app_key := "b", api_url := "", validate := true } =
      (.error .missingCreds, []) :=
  validate_true_empty_creds_fails_without_network ext0
    { api_key := "", app_key := "b", api_url := "", validate := true }
    rfl (Or.inl rfl)

/-- C6: for every input with validate = false, the credential validator
makes no network call (the event trace is empty) and never produces a
credential error, regardless of the credential values. -/
theorem validate_false_no_network_no_credential_error
    (ext : Externals) (d : ResourceData) (hv : d.validate = false) :
    (providerConfigure ext d).2 = [] ∧
      ∀ e, (providerConfigure ext d).1 = .error e → e.isCredentialError = false := by
  have hok : d.validate = true →
      d.api_key ≠ "" ∧ d.app_key ≠ "" ∧ ext.validateOutcome = .ok true := by
    intro h
    rw [hv] at h
    exact absurd h (by simp)
  by_cases hurl : d.api_url = ""
  · rw [providerConfigure_eq_success_noURL hok hurl]
    simp [hv]
  · cases hp : ext.parse d.api_url with
    | error pe =>
      rw [providerConfigure_eq_parse_error hok hurl hp]
      refine ⟨by simp [hv], ?_⟩
      intro e he
      simp only [Except.error.injEq] at he
      rw [← he]
      rfl
    | ok u =>
      by_cases hb : u.host = "" ∨ u.scheme = ""
      · rw [providerConfigure_eq_incomplete hok hurl hp hb]
        refine ⟨by simp [hv], ?_⟩
        intro e he
        simp only [Except.error.injEq] at he
        rw [← he]
        rfl
      · push_neg at hb
        rw [providerConfigure_eq_success_override hok hurl hp hb.1 hb.2]
        refine ⟨by simp [hv], ?_⟩
        intro e he
        simp at he

/-- Witness for C6 at a concrete input: validate off, empty credentials,
no api_url — trace is empty. -/
theorem validate_false_no_network_no_credential_error_witness :
    dNoValidate.validate = false ∧ (providerConfigure ext0 dNoValidate).2 = [] :=
  ⟨rfl, (validate_false_no_network_no_credential_error ext0 dNoValidate rfl).1⟩

/-- C1 counterexample: a configuration with a malformed api_url, validate
on and non-empty credentials.  Bootstrap does fail with the endpoint
error, but the credential-validation network call has already been made
(the trace holds the validateCall event), contradicting the claim that
the Endpoint Resolver runs before the Credential Validator and that the
validation call is never made on a malformed api_url. -/
theorem endpoint_error_still_validates_counterexample :
    providerConfigure ext0 dBadUrl =
      (.error (.invalidAPIUrl "parse http://a b.com: invalid character in host"),
       [NetEvent.validateCall]) := by
  rfl

/-- C1 (amended): the Credential Validator runs before the Endpoint
Resolver.  Whenever the api_url is supplied and malformed or missing
host or scheme (and the run gets past the credential guard and the
validation round-trip), bootstrap fails with the endpoint error, but the
credential-validation network call has already been made exactly when
validate is true, and is skipped only when validate is false. -/
theorem endpoint_error_after_validation
    (ext : Externals) (d : ResourceData)
    (hok : d.validate = true →
      d.api_key ≠ "" ∧ d.app_key ≠ "" ∧ ext.validateOutcome = .ok true)
    (hurl : d.api_url ≠ "")
    (hbad : (∃ pe, ext.parse d.api_url = .error pe) ∨
      (∃ u, ext.parse d.api_url = .ok u ∧ (u.host = "" ∨ u.scheme = ""))) :
    (∃ e, (providerConfigure ext d).1 = .error e ∧ e.isEndpointError = true) ∧
      (providerConfigure ext d).2 =
        (if d.validate then [NetEvent.validateCall] else []) := by
  rcases hbad with ⟨pe, hp⟩ | ⟨u, hp, hb⟩
  · rw [providerConfigure_eq_parse_error hok hurl hp]
    exact ⟨⟨_, rfl, rfl⟩, rfl⟩
  · rw [providerConfigure_eq_incomplete hok hurl hp hb]
    exact ⟨⟨_, rfl, rfl⟩, rfl⟩

/-- Witness for the amended C1 at a concrete input: the malformed URL
input makes bootstrap fail with an endpoint error while the validation
call was made. -/
theorem endpoint_error_after_validation_witness :
    (providerConfigure ext0 dBadUrl).2 = [NetEvent.validateCall] := by
  have h := endpoint_error_after_validation ext0 dBadUrl
    (fun _ => ⟨by decide, by decide, rfl⟩) (by decide)
    (Or.inl ⟨"parse http://a b.com: invalid character in host", rfl⟩)
  simpa using h.2

/-- C2 counterexample: on a successful bootstrap with concrete external
versions, the community (legacy) client and the V1 (current) client do
not carry an identical user-agent string — the wrapped-client suffix
differs — contradicting the claim that one identity string is reused
verbatim by both generations. -/
theorem identity_not_shared_counterexample :
    (getOk (providerConfigure ext0 dNoValidate).1).map
        (fun pc => pc.communityClient.userAgent) ≠
      (getOk (providerConfigure ext0 dNoValidate).1).map
        (fun pc => pc.configV1.userAgent) := by
  decide

/-- C2 (amended): every successful bootstrap derives all three client
user agents through the single getUserAgent function over the same three
version inputs, so they share an identical prefix; the wrapped-client
suffix differs per client (a fixed literal for the community client, the
library defaults for V1/V2), and two identity strings coincide exactly
when their wrapped suffixes do. -/
theorem user_agents_built_by_one_function
    (ext : Externals) (d : ResourceData) (pc : ProviderConfiguration)
    (h : (providerConfigure ext d).1 = .ok pc) :
    pc.communityClient.userAgent = getUserAgent ext (communityWrappedAgent ext) ∧
    pc.configV1.userAgent = getUserAgent ext ext.v1DefaultUserAgent ∧
    pc.configV2.userAgent = getUserAgent ext ext.v2DefaultUserAgent ∧
    (ext.v1DefaultUserAgent = ext.v2DefaultUserAgent →
      pc.configV1.userAgent = pc.configV2.userAgent) := by
  obtain ⟨h1, h2, h3, _, _⟩ := providerConfigure_ok_inv h
  refine ⟨h1, h2, h3, ?_⟩
  intro hd
  rw [h2, h3, hd]

/-- Witness for the amended C2 at a concrete input. -/
theorem user_agents_built_by_one_function_witness :
    (getOk (providerConfigure ext0 dNoValidate).1).map
        (fun pc => pc.configV1.userAgent) =
      some (getUserAgent ext0 ext0.v1DefaultUserAgent) := by
  obtain ⟨pc, hpc⟩ : ∃ pc, (providerConfigure ext0 dNoValidate).1 = .ok pc :=
    ⟨_, congrArg Prod.fst
      (providerConfigure_eq_success_noURL (fun h => absurd h (by decide)) rfl)⟩
  have hx := user_agents_built_by_one_function ext0 dNoValidate pc hpc
  rw [hpc]
  simp [getOk, hx.2.1]

/-- C3 counterexample: on a successful bootstrap with a concrete
override URL, the V1 auth context carries the per-operation routing
table but the V2 auth context does not, contradicting the claim that the
OperationRouting table is attached on both current-generation
configurations. -/
theorem v2_missing_operation_routing_counterexample :
    (getOk (providerConfigure ext0 dOverride).1).map
        (fun pc => (pc.authV1.operationServerIndices,
          pc.authV2.operationServerIndices)) =
      some (some [(ipRangesOperationId, 1)], none) := by
  rfl

/-- C3 (amended): for every supplied override URL that parses with
non-empty host and scheme, both the V1 and the V2 auth context switch
the active server to the non-default slot 1 (slot 0 is left as the
default), but the per-operation OperationRouting table is layered on top
of the global switch only in the V1 auth context; the V2 auth context
carries no per-operation values. -/
theorem override_switches_server_routing_v1_only
    (ext : Externals) (d : ResourceData) (u : ParsedURL)
    (pc : ProviderConfiguration)
    (hok : d.validate = true →
      d.api_key ≠ "" ∧ d.app_key ≠ "" ∧ ext.validateOutcome = .ok true)
    (hurl : d.api_url ≠ "")
    (hparse : ext.parse d.api_url = .ok u)
    (hhost : u.host ≠ "") (hscheme : u.scheme ≠ "")
    (h : (providerConfigure ext d).1 = .ok pc) :
    pc.authV1.serverIndex = some 1 ∧
    pc.authV2.serverIndex = some 1 ∧
    pc.authV1.serverVariables = some [("name", u.host), ("protocol", u.scheme)] ∧
    pc.authV2.serverVariables = some [("name", u.host), ("protocol", u.scheme)] ∧
    pc.authV1.operationServerIndices = some [(ipRangesOperationId, 1)] ∧
    pc.authV1.operationServerVariables =
      some [(ipRangesOperationId, [("name", ipRangesHost u.hostname)])] ∧
    pc.authV2.operationServerIndices = none ∧
    pc.authV2.operationServerVariables = none := by
  rw [providerConfigure_eq_success_override hok hurl hparse hhost hscheme] at h
  cases h
  exact ⟨rfl, rfl, rfl, rfl, rfl, rfl, rfl, rfl⟩

/-- Witness for the amended C3 at a concrete input. -/
theorem override_switches_server_routing_v1_only_witness :
    (getOk (providerConfigure ext0 dOverride).1).map
        (fun pc => (pc.authV1.serverIndex, pc.authV2.serverIndex,
          pc.authV2.operationServerVariables)) =
      some (some 1, some 1, none) := by
  obtain ⟨pc, hpc⟩ : ∃ pc, (providerConfigure ext0 dOverride).1 = .ok pc :=
    ⟨_, congrArg Prod.fst (providerConfigure_eq_success_override
      (fun _ => ⟨by decide, by decide, rfl⟩) (by decide) rfl
      (by decide) (by decide))⟩
  have hx := override_switches_server_routing_v1_only ext0 dOverride
    { scheme := "https", host := "app.us5.datadoghq.com",
      hostname := "app.us5.datadoghq.com" } pc
    (fun _ => ⟨by decide, by decide, rfl⟩) (by decide) rfl
    (by decide) (by decide) hpc
  rw [hpc]
  simp [getOk, hx.1, hx.2.1, hx.2.2.2.2.2.2.2]

/-- Helper: inversion on a successful run without an api_url — both auth
contexts are the bare credential contexts, with no server or
per-operation values. -/
theorem providerConfigure_ok_noURL_inv {ext : Externals} {d : ResourceData}
    {pc : ProviderConfiguration}
    (hurl : d.api_url = "") (h : (providerConfigure ext d).1 = .ok pc) :
    pc.authV1 = baseAuth d.api_key d.app_key ∧
    pc.authV2 = baseAuth d.api_key d.app_key := by
  unfold providerConfigure at h
  repeat' split at h
  all_goals simp_all [baseAuth]
  all_goals (cases h; simp [baseAuth])

/-- C4: for every override host, the derived IP-ranges routing host is
computed by splitting the port-stripped hostname into DNS labels on ".",
dropping the leftmost label exactly when there are more than two labels,
prepending the literal baseIpRangesSubdomain = "ip-ranges", and
rejoining with "."; the hostnames api.datadoghq.com and
app.us5.datadoghq.com yield ip-ranges.datadoghq.com and
ip-ranges.us5.datadoghq.com; the routing entry is attached under exactly
the one operation identifier IPRangesApiService.GetIPRanges, and it is
absent whenever no override is supplied. -/
theorem ip_ranges_routing_derivation (ext : Externals) (d : ResourceData) :
    (∀ u pc,
      (d.validate = true →
        d.api_key ≠ "" ∧ d.app_key ≠ "" ∧ ext.validateOutcome = .ok true) →
      d.api_url ≠ "" →
      ext.parse d.api_url = .ok u →
      u.host ≠ "" → u.scheme ≠ "" →
      (providerConfigure ext d).1 = .ok pc →
      pc.authV1.operationServerVariables =
        some [(ipRangesOperationId, [("name", ipRangesHost u.hostname)])] ∧
      pc.authV1.operationServerIndices = some [(ipRangesOperationId, 1)]) ∧
    (∀ pc, d.api_url = "" →
      (providerConfigure ext d).1 = .ok pc →
      pc.authV1.operationServerVariables = none ∧
      pc.authV1.operationServerIndices = none) ∧
    (∀ hostname : String, ipRangesHost hostname =
      goJoin (baseIpRangesSubdomain ::
        (if (goSplit hostname '.').length > 2 then (goSplit hostname '.').drop 1
         else goSplit hostname '.')) '.') ∧
    ipRangesHost "api.datadoghq.com" = "ip-ranges.datadoghq.com" ∧
    ipRangesHost "app.us5.datadoghq.com" = "ip-ranges.us5.datadoghq.com" := by
  refine ⟨?_, ?_, fun hostname => rfl, rfl, rfl⟩
  · intro u pc hok hurl hparse hhost hscheme h
    rw [providerConfigure_eq_success_override hok hurl hparse hhost hscheme] at h
    cases h
    exact ⟨rfl, rfl⟩
  · intro pc hurl h
    obtain ⟨h1, _⟩ := providerConfigure_ok_noURL_inv hurl h
    rw [h1]
    exact ⟨rfl, rfl⟩

/-- Witness for C4 at a concrete input: the multi-label override host
app.us5.datadoghq.com produces the routing entry
ip-ranges.us5.datadoghq.com under the single IP-ranges operation
identifier. -/
theorem ip_ranges_routing_derivation_witness :
    (getOk (providerConfigure ext0 dOverride).1).map
        (fun pc => pc.authV1.operationServerVariables) =
      some (some [(ipRangesOperationId,
        [("name", "ip-ranges.us5.datadoghq.com")])]) := by
  obtain ⟨pc, hpc⟩ : ∃ pc, (providerConfigure ext0 dOverride).1 = .ok pc :=
    ⟨_, congrArg Prod.fst (providerConfigure_eq_success_override
      (fun _ => ⟨by decide, by decide, rfl⟩) (by decide) rfl
      (by decide) (by decide))⟩
  have hx := (ip_ranges_routing_derivation ext0 dOverride).1
    { scheme := "https", host := "app.us5.datadoghq.com",
      hostname := "app.us5.datadoghq.com" } pc
    (fun _ => ⟨by decide, by decide, rfl⟩) (by decide) rfl
    (by decide) (by decide) hpc
  rw [hpc]
  rw [show Option.map (fun q => q.authV1.operationServerVariables)
    (getOk (Except.ok pc)) = some pc.authV1.operationServerVariables from rfl]
  rw [hx.1]
  rfl

/-- Helper: a string contains itself. -/
theorem containsStr_refl (s : String) : containsStr s s :=
  ⟨[], [], by simp⟩

/-- Helper: containment is preserved by prepending on the left. -/
theorem containsStr_append_left (s a b : String) (h : containsStr s b) :
    containsStr s (a ++ b) := by
  obtain ⟨pre, post, hb⟩ := h
  exact ⟨a.data ++ pre, post, by
    rw [String.data_append, hb]
    simp [List.append_assoc]⟩

/-- Helper: containment is preserved by appending on the right. -/
theorem containsStr_append_right (s a b : String) (h : containsStr s a) :
    containsStr s (a ++ b) := by
  obtain ⟨pre, post, ha⟩ := h
  exact ⟨pre, post ++ b.data, by
    rw [String.data_append, ha]
    simp [List.append_assoc]⟩

/-- Helper: a string containing a non-empty string is non-empty. -/
theorem containsStr_ne_empty {n h : String} (hn : n ≠ "") (hc : containsStr n h) :
    h ≠ "" := by
  obtain ⟨pre, post, he⟩ := hc
  intro h0
  rw [h0] at he
  have he2 : pre ++ n.data ++ post = [] := he.symm
  have hd : n.data = [] := by
    rcases List.append_eq_nil.mp he2 with ⟨hl, _⟩
    exact (List.append_eq_nil.mp hl).2
  exact hn (String.ext hd)

/-- C7: for every supplied api_url, a parse failure produces the
"invalid API Url" error (whose message surfaces the parse error, hence
the offending input whenever the parser echoes it), an empty parsed host
or scheme produces the distinct "missing protocol or host" error whose
message carries the offending input verbatim, both without producing any
configuration, and on success the emitted server variables carry exactly
the parsed host and scheme. -/
theorem endpoint_resolver_error_contract (ext : Externals) (d : ResourceData) :
    (∀ pe,
      (d.validate = true →
        d.api_key ≠ "" ∧ d.app_key ≠ "" ∧ ext.validateOutcome = .ok true) →
      d.api_url ≠ "" →
      ext.parse d.api_url = .error pe →
      (providerConfigure ext d).1 = .error (.invalidAPIUrl pe) ∧
      (ConfigureError.invalidAPIUrl pe).message = "invalid API Url : " ++ pe ∧
      (containsStr d.api_url pe →
        containsStr d.api_url (ConfigureError.invalidAPIUrl pe).message)) ∧
    (∀ u,
      (d.validate = true →
        d.api_key ≠ "" ∧ d.app_key ≠ "" ∧ ext.validateOutcome = .ok true) →
      d.api_url ≠ "" →
      ext.parse d.api_url = .ok u →
      u.host = "" ∨ u.scheme = "" →
      (providerConfigure ext d).1 = .error (.missingProtocolOrHost d.api_url) ∧
      containsStr d.api_url (ConfigureError.missingProtocolOrHost d.api_url).message) ∧
    (∀ pe s, ConfigureError.invalidAPIUrl pe ≠ ConfigureError.missingProtocolOrHost s) ∧
    (∀ u pc,
      (d.validate = true →
        d.api_key ≠ "" ∧ d.app_key ≠ "" ∧ ext.validateOutcome = .ok true) →
      d.api_url ≠ "" →
      ext.parse d.api_url = .ok u →
      u.host ≠ "" → u.scheme ≠ "" →
      (providerConfigure ext d).1 = .ok pc →
      pc.authV1.serverVariables = some [("name", u.host), ("protocol", u.scheme)] ∧
      pc.authV2.serverVariables = some [("name", u.host), ("protocol", u.scheme)]) := by
  refine ⟨?_, ?_, ?_, ?_⟩
  · intro pe hok hurl hparse
    rw [providerConfigure_eq_parse_error hok hurl hparse]
    refine ⟨rfl, rfl, ?_⟩
    intro hin
    exact containsStr_append_left _ "invalid API Url : " pe hin
  · intro u hok hurl hparse hbad
    rw [providerConfigure_eq_incomplete hok hurl hparse hbad]
    exact ⟨rfl,
      containsStr_append_left _ "missing protocol or host : " d.api_url
        (containsStr_refl d.api_url)⟩
  · intro pe s hne
    cases hne
  · intro u pc hok hurl hparse hhost hscheme h
    rw [providerConfigure_eq_success_override hok hurl hparse hhost hscheme] at h
    cases h
    exact ⟨rfl, rfl⟩

/-- Witness for C7 at a concrete input: a scheme-less api_url parses
with empty host and scheme and bootstrap fails with the
missing-protocol-or-host error. -/
theorem endpoint_resolver_error_contract_witness :
    (providerConfigure ext0 dNoScheme).1 =
      .error (.missingProtocolOrHost "api.example.com") :=
  ((endpoint_resolver_error_contract ext0 dNoScheme).2.1
    { scheme := "", host := "", hostname := "" }
    (fun _ => ⟨by decide, by decide, rfl⟩) (by decide) rfl (Or.inl rfl)).1

/-- C8: for every error value and every context message, the error
translator returns a non-empty message that contains the effective
context (the caller's message, or the fixed phrase "an error occurred"
when the caller's message is empty); for a structured API error of
either client generation the message also contains the original error
text and the decoded body text. -/
theorem translate_client_error_contract (e : GoError) (m : String) :
    translateClientError e m ≠ "" ∧
    containsStr (if m == "" then "an error occurred" else m)
      (translateClientError e m) ∧
    (m = "" → containsStr "an error occurred" (translateClientError e m)) ∧
    (e.isStructuredAPIError = true →
      containsStr e.text (translateClientError e m) ∧
      containsStr e.body (translateClientError e m)) := by
  have hm : (if m == "" then "an error occurred" else m) ≠ "" := by
    by_cases h : m = ""
    · simp [h]
    · simp [beq_eq_false_iff_ne.mpr h, h]
  have hcm : containsStr (if m == "" then "an error occurred" else m)
      (translateClientError e m) := by
    cases e with
    | v1APIError t b =>
      exact containsStr_append_right _ _ _ (containsStr_append_right _ _ _
        (containsStr_append_right _ _ _ (containsStr_append_right _ _ _
          (containsStr_refl _))))
    | v2APIError t b =>
      exact containsStr_append_right _ _ _ (containsStr_append_right _ _ _
        (containsStr_append_right _ _ _ (containsStr_append_right _ _ _
          (containsStr_refl _))))
    | urlError t =>
      exact containsStr_append_right _ _ _ (containsStr_append_right _ _ _
        (containsStr_refl _))
    | generic t =>
      exact containsStr_append_right _ _ _ (containsStr_append_right _ _ _
        (containsStr_refl _))
  refine ⟨containsStr_ne_empty hm hcm, hcm, ?_, ?_⟩
  · intro h0
    have : (if m == "" then "an error occurred" else m) = "an error occurred" := by
      simp [h0]
    rw [← this]
    exact hcm
  · intro hs
    cases e with
    | v1APIError t b =>
      constructor
      · exact containsStr_append_right _ _ _ (containsStr_append_right _ _ _
          (containsStr_append_left _ _ _ (containsStr_refl _)))
      · exact containsStr_append_left _ _ _ (containsStr_refl _)
    | v2APIError t b =>
      constructor
      · exact containsStr_append_right _ _ _ (containsStr_append_right _ _ _
          (containsStr_append_left _ _ _ (containsStr_refl _)))
      · exact containsStr_append_left _ _ _ (containsStr_refl _)
    | urlError t => cases hs
    | generic t => cases hs

/-- Witness for C8 at a concrete input: a structured V1 API error with
an empty context message. -/
theorem translate_client_error_contract_witness :
    translateClientError (GoError.v1APIError "400 Bad Request" "decoded body") "" ≠ "" ∧
    containsStr "decoded body"
      (translateClientError (GoError.v1APIError "400 Bad Request" "decoded body") "") :=
  ⟨(translate_client_error_contract
      (GoError.v1APIError "400 Bad Request" "decoded body") "").1,
   ((translate_client_error_contract
      (GoError.v1APIError "400 Bad Request" "decoded body") "").2.2.2 rfl).2⟩

/-- C9: the identity string equals the spec format
"[hosting-tool]/[tool-version] ([runtime-name] [runtime-version]; [runtime-cli-version]) [wrapped-client-agent]"
instantiated with hosting tool terraform-provider-datadog, runtime name
terraform, and the terraform-cli-labelled negotiated version; and it is
deterministic in exactly the three version inputs and the wrapped
client agent. -/
theorem user_agent_matches_spec_format (ext : Externals) (c : String) :
    getUserAgent ext c =
      specUserAgentFormat "terraform-provider-datadog" ext.providerVersion
        "terraform" ext.sdkVersion ("terraform-cli " ++ ext.terraformVersion) c ∧
    (∀ ext2 : Externals, ext.providerVersion = ext2.providerVersion →
      ext.sdkVersion = ext2.sdkVersion →
      ext.terraformVersion = ext2.terraformVersion →
      getUserAgent ext c = getUserAgent ext2 c) := by
  constructor
  · have e1 : ∀ X : String, "terraform-provider-datadog" ++ ("/" ++ X) =
        "terraform-provider-datadog/" ++ X := by
      intro X
      rw [← String.append_assoc]
      rw [show ("terraform-provider-datadog" : String) ++ "/" =
        "terraform-provider-datadog/" from rfl]
    have e2 : ∀ X : String, " (" ++ ("terraform" ++ (" " ++ X)) =
        " (terraform " ++ X := by
      intro X
      rw [← String.append_assoc, ← String.append_assoc]
      rw [show (" (" : String) ++ "terraform" ++ " " = " (terraform " from rfl]
    have e3 : ∀ X : String, "; " ++ ("terraform-cli " ++ X) =
        "; terraform-cli " ++ X := by
      intro X
      rw [← String.append_assoc]
      rw [show ("; " : String) ++ "terraform-cli " = "; terraform-cli " from rfl]
    simp only [getUserAgent, specUserAgentFormat, String.append_assoc, e1, e2, e3]
  · intro ext2 h1 h2 h3
    simp only [getUserAgent, h1, h2, h3]

/-- Witness for C9 at concrete inputs. -/
theorem user_agent_matches_spec_format_witness :
    getUserAgent ext0 "client-agent" =
      specUserAgentFormat "terraform-provider-datadog" ext0.providerVersion
        "terraform" ext0.sdkVersion ("terraform-cli " ++ ext0.terraformVersion)
        "client-agent" :=
  (user_agent_matches_spec_format ext0 "client-agent").1

/-- Helper: splitting never yields an empty list of groups. -/
theorem splitChars_ne_nil (sep : Char) (l : List Char) : splitChars sep l ≠ [] := by
  cases l with
  | nil => simp [splitChars]
  | cons c rest =>
    simp only [splitChars]
    split
    · simp
    · split <;> simp

/-- Helper: every character of every group produced by splitChars is a
character of the input. -/
theorem mem_of_mem_splitChars {sep c : Char} {l g : List Char}
    (hg : g ∈ splitChars sep l) (hc : c ∈ g) : c ∈ l := by
  induction l generalizing g with
  | nil =>
    simp [splitChars] at hg
    subst hg
    simp at hc
  | cons a rest ih =>
    simp only [splitChars] at hg
    split at hg
    · next heq => exact absurd heq (splitChars_ne_nil sep rest)
    · next g0 gs0 heq =>
      by_cases ha : a = sep
      · rw [if_pos ha] at hg
        rcases List.mem_cons.mp hg with h | h
        · subst h
          simp at hc
        · have hmem : g ∈ splitChars sep rest := by
            rw [heq]
            exact h
          exact List.mem_cons_of_mem a (ih hmem hc)
      · rw [if_neg ha] at hg
        rcases List.mem_cons.mp hg with h | h
        · subst h
          rcases List.mem_cons.mp hc with h2 | h2
          · subst h2
            exact List.mem_cons_self c rest
          · have hmem : g0 ∈ splitChars sep rest := by
              rw [heq]
              exact List.mem_cons_self g0 gs0
            exact List.mem_cons_of_mem a (ih hmem h2)
        · have hmem : g ∈ splitChars sep rest := by
            rw [heq]
            exact List.mem_cons_of_mem g0 h
          exact List.mem_cons_of_mem a (ih hmem hc)

/-- Helper: every character of a join is the separator or a character of
one of the joined groups. -/
theorem mem_joinChars {sep c : Char} {gs : List (List Char)}
    (h : c ∈ joinChars sep gs) : c = sep ∨ ∃ g, g ∈ gs ∧ c ∈ g := by
  induction gs with
  | nil => simp [joinChars] at h
  | cons g gs ih =>
    cases gs with
    | nil =>
      exact Or.inr ⟨g, List.mem_cons_self g [], by simpa [joinChars] using h⟩
    | cons g2 gs2 =>
      simp only [joinChars] at h
      rw [List.mem_append] at h
      cases h with
      | inl hg => exact Or.inr ⟨g, List.mem_cons_self _ _, hg⟩
      | inr hh =>
        rcases List.mem_cons.mp hh with hsep | hj
        · exact Or.inl hsep
        · rcases ih hj with hs | ⟨g3, hg3, hc3⟩
          · exact Or.inl hs
          · exact Or.inr ⟨g3, List.mem_cons_of_mem _ hg3, hc3⟩

/-- Helper: the character list underlying the derived IP-ranges host. -/
theorem ipRangesHost_data (hostname : String) :
    (ipRangesHost hostname).data =
      joinChars '.' (baseIpRangesSubdomain.data ::
        (if (splitChars '.' hostname.data).length > 2
         then (splitChars '.' hostname.data).drop 1
         else splitChars '.' hostname.data)) := by
  show joinChars '.'
      (((baseIpRangesSubdomain ::
        (if ((splitChars '.' hostname.data).map String.mk).length > 2
         then ((splitChars '.' hostname.data).map String.mk).drop 1
         else (splitChars '.' hostname.data).map String.mk)).map String.data)) = _
  congr 1
  simp only [List.map_cons, List.length_map]
  congr 1
  by_cases hlen : (splitChars '.' hostname.data).length > 2
  · rw [if_pos hlen, if_pos hlen, ← List.map_drop, List.map_map]
    exact List.map_id _
  · rw [if_neg hlen, if_neg hlen, List.map_map]
    exact List.map_id _

/-- Helper: the derived IP-ranges host contains no colon when the
hostname it is derived from contains none. -/
theorem ipRangesHost_no_colon {hostname : String}
    (hc : (':' : Char) ∉ hostname.data) :
    (':' : Char) ∉ (ipRangesHost hostname).data := by
  intro hmem
  rw [ipRangesHost_data] at hmem
  rcases mem_joinChars hmem with hs | ⟨g, hg, hcg⟩
  · exact absurd hs (by decide)
  · rcases List.mem_cons.mp hg with hbase | hrest
    · subst hbase
      exact absurd hcg (by decide)
    · have hgs : g ∈ splitChars '.' hostname.data := by
        by_cases hlen : (splitChars '.' hostname.data).length > 2
        · rw [if_pos hlen] at hrest
          exact List.mem_of_mem_drop hrest
        · rw [if_neg hlen] at hrest
          exact hrest
      exact hc (mem_of_mem_splitChars hgs hcg)

/-- C10: for an override URL whose host carries an explicit port (host =
hostname ++ ":" ++ port, with a colon-free hostname as for any non-IPv6
host), the general server override records the host including the port
in both generations, while the derived IP-ranges routing host is
computed from the port-stripped hostname and therefore contains no
colon, hence no port. -/
theorem override_keeps_port_routing_strips_port
    (ext : Externals) (d : ResourceData) (u : ParsedURL) (p : String)
    (pc : ProviderConfiguration)
    (hok : d.validate = true →
      d.api_key ≠ "" ∧ d.app_key ≠ "" ∧ ext.validateOutcome = .ok true)
    (hurl : d.api_url ≠ "")
    (hparse : ext.parse d.api_url = .ok u)
    (hscheme : u.scheme ≠ "")
    (hport : u.host = u.hostname ++ ":" ++ p)
    (hcolon : (':' : Char) ∉ u.hostname.data)
    (h : (providerConfigure ext d).1 = .ok pc) :
    pc.authV1.serverVariables =
      some [("name", u.hostname ++ ":" ++ p), ("protocol", u.scheme)] ∧
    pc.authV2.serverVariables =
      some [("name", u.hostname ++ ":" ++ p), ("protocol", u.scheme)] ∧
    pc.authV1.operationServerVariables =
      some [(ipRangesOperationId, [("name", ipRangesHost u.hostname)])] ∧
    (':' : Char) ∉ (ipRangesHost u.hostname).data := by
  have hhost : u.host ≠ "" := by
    rw [hport]
    intro h0
    have hd := congrArg String.data h0
    rw [String.data_append, String.data_append] at hd
    have hd2 : (u.hostname.data ++ (":" : String).data) ++ p.data = [] := hd
    have h3 : ((":" : String).data) = [] :=
      (List.append_eq_nil.mp (List.append_eq_nil.mp hd2).1).2
    exact absurd h3 (by decide)
  rw [providerConfigure_eq_success_override hok hurl hparse hhost hscheme] at h
  cases h
  refine ⟨?_, ?_, rfl, ipRangesHost_no_colon hcolon⟩
  · rw [← hport]
  · rw [← hport]

/-- Witness for C10 at a concrete input: the override URL
https://api.example.com:8080 keeps the port in the server override while
the routing host ip-ranges.example.com carries none. -/
theorem override_keeps_port_routing_strips_port_witness :
    (getOk (providerConfigure ext0 dPort).1).map
        (fun q => q.authV1.serverVariables) =
      some (some [("name", "api.example.com:8080"), ("protocol", "https")]) ∧
    (':' : Char) ∉ (ipRangesHost "api.example.com").data := by
  obtain ⟨pc, hpc⟩ : ∃ pc, (providerConfigure ext0 dPort).1 = .ok pc :=
    ⟨_, congrArg Prod.fst (providerConfigure_eq_success_override
      (fun _ => ⟨by decide, by decide, rfl⟩) (by decide) rfl
      (by decide) (by decide))⟩
  have hx := override_keeps_port_routing_strips_port ext0 dPort
    { scheme := "https", host := "api.example.com:8080",
      hostname := "api.example.com" } "8080" pc
    (fun _ => ⟨by decide, by decide, rfl⟩) (by decide) rfl
    (by decide) (by decide) (by decide) hpc
  constructor
  · rw [hpc]
    rw [show Option.map (fun q => q.authV1.serverVariables)
      (getOk (Except.ok pc)) = some pc.authV1.serverVariables from rfl]
    rw [hx.1]
    rfl
  · exact hx.2.2.2

end DatadogProvider
